import Mathlib

/-
Shallow embedding of the core of the ai-agent-platform repository:
the task execution engine (src/ai_agent_platform/execution/engine.py),
the memory/context manager (src/ai_agent_platform/memory/context.py) and
the universal tool registry (src/ai_agent_platform/tools/registry.py).

Python container values are modelled as Lean lists; Python strings as
Lean String; dict lookups with defaults as if-chains; fallible awaited
calls into external collaborators (completion provider, retrieval
service, task-type handlers) as Except String oracles threaded in as
explicit parameters; wall-clock elapsed milliseconds as a Nat parameter
of the environment (a monotone clock).
-/

/-- String helper: Python's substring test (needle in hay), decided by
scanning every suffix of the haystack for the needle as a prefix. -/
def strContains (hay needle : String) : Bool :=
  hay.toList.tails.any (fun t => needle.toList.isPrefixOf t)

/-- Accumulating splitter over characters: cur holds the current word
reversed; whitespace closes a word, empty fragments are dropped. -/
def splitWsAux : List Char → List Char → List String
  | [], cur => if cur.isEmpty then [] else [String.mk cur.reverse]
  | c :: cs, cur =>
    if c.isWhitespace then
      if cur.isEmpty then splitWsAux cs []
      else String.mk cur.reverse :: splitWsAux cs []
    else splitWsAux cs (c :: cur)

/-- Python str.split() with no argument: split on whitespace runs and
drop empty fragments. -/
def pySplitWhitespace (s : String) : List String :=
  splitWsAux s.toList []

/-- Python str.lower(), character by character (the contents involved
are ASCII). -/
def pyLower (s : String) : String :=
  String.mk (s.toList.map Char.toLower)

/-- A single-quote character, used by Python's repr of a string list. -/
def squote : String := String.singleton (Char.ofNat 39)

/-- Python repr of a list of strings, as produced by an f-string
interpolation of a list value. -/
def pyListRepr (xs : List String) : String :=
  "[" ++ String.intercalate ", " (xs.map (fun s => squote ++ s ++ squote)) ++ "]"

/-- Task execution status (execution/engine.py, class TaskStatus). -/
inductive TaskStatus
  | pending
  | running
  | completed
  | failed
  | cancelled
deriving DecidableEq

/-- Execution context for agent tasks (execution/engine.py,
class ExecutionContext); timestamps are omitted (set and read only for
logging) and metadata is opaque to every claim. -/
structure ExecutionContext where
  task_id : String
  agent_id : String
  session_id : Option String := none
  user_id : Option String := none
deriving DecidableEq

/-- Agent snapshot as consumed by the engine (models/agent.py, class
Agent): only the fields the engine reads. -/
structure Agent where
  name : String
  description : String
  capabilities : List String
  agent_type : String
deriving DecidableEq

/-- Security levels for tools (tools/registry.py, class
ToolSecurityLevel). -/
inductive ToolSecurityLevel
  | public
  | restricted
  | internal
  | classified
deriving DecidableEq

/-- Tool descriptor row (models/agent.py, class ToolRegistry): the
fields check_tool_access reads. A Python allowed_agent_types of None or
[] is modelled as the empty list (both are falsy in the guard). -/
structure ToolRegistry where
  tool_name : String
  is_public : Bool
  allowed_agent_types : List String
  security_level : ToolSecurityLevel
  is_deleted : Bool := false
deriving DecidableEq

/-- UniversalToolRegistry.get_tool: first row matching the name and not
soft-deleted (the SQL where-clause on tool_name and is_deleted). -/
def get_tool (tools : List ToolRegistry) (tool_name : String) : Option ToolRegistry :=
  tools.find? (fun t => t.tool_name == tool_name && !t.is_deleted)

/-- The security_levels dict of UniversalToolRegistry.check_tool_access:
clearance string to list of allowed levels, defaulting to the public
singleton for any unknown clearance (dict.get default). -/
def security_levels (security_clearance : String) : List ToolSecurityLevel :=
  if security_clearance = "public" then [.public]
  else if security_clearance = "restricted" then [.public, .restricted]
  else if security_clearance = "internal" then [.public, .restricted, .internal]
  else [.public]

/-- UniversalToolRegistry.check_tool_access (tools/registry.py lines
238-271), over an explicit registry-table state. -/
def check_tool_access (tools : List ToolRegistry) (tool_name agent_type security_clearance : String) : Bool :=
  match get_tool tools tool_name with
  | none => false
  | some tool =>
    if tool.is_public && tool.security_level == ToolSecurityLevel.public then
      true
    else
      let allowed_levels := security_levels security_clearance
      if !(allowed_levels.contains tool.security_level) then false
      else if !tool.allowed_agent_types.isEmpty && !(tool.allowed_agent_types.contains agent_type) then false
      else true

/-- Numeric rank of a security tier in the order
public < restricted < internal < classified. -/
def tierRank : ToolSecurityLevel → Nat
  | .public => 0
  | .restricted => 1
  | .internal => 2
  | .classified => 3

/-- Clearance tier named by a clearance string, per the spec's tier
vocabulary; none for strings naming no tier. -/
def clearanceTier (c : String) : Option ToolSecurityLevel :=
  if c = "public" then some .public
  else if c = "restricted" then some .restricted
  else if c = "internal" then some .internal
  else if c = "classified" then some .classified
  else none

/-- The access predicate in the words of claim C2 and spec section 4.4:
false if the tool is unknown; true immediately if public at the lowest
tier; otherwise the caller's clearance tier must dominate the tool's
declared tier (public < restricted < internal < classified, each tier
including all lower tiers), and a non-empty allow-list must contain the
caller's agent type. Written for comparison against check_tool_access. -/
def check_tool_access_spec (tools : List ToolRegistry) (tool_name agent_type security_clearance : String) : Bool :=
  match get_tool tools tool_name with
  | none => false
  | some tool =>
    if tool.is_public && tool.security_level == ToolSecurityLevel.public then
      true
    else
      match clearanceTier security_clearance with
      | none => false
      | some c =>
        decide (tierRank tool.security_level ≤ tierRank c)
          && (tool.allowed_agent_types.isEmpty || tool.allowed_agent_types.contains agent_type)

/-- Clearance rank as the code actually implements it through the
security_levels table: restricted maps to 1, internal to 2, and every
other clearance string (public included, classified included) to 0. -/
def clearance_rank_code (c : String) : Nat :=
  if c = "restricted" then 1
  else if c = "internal" then 2
  else 0

/-- The amended access predicate for claim C2: as the claim states it,
except that the dominance comparison uses clearance_rank_code, so a
clearance string outside restricted/internal (classified included) only
dominates the public tier, and a classified tool tier is dominated by no
clearance. -/
def check_tool_access_amended (tools : List ToolRegistry) (tool_name agent_type security_clearance : String) : Bool :=
  match get_tool tools tool_name with
  | none => false
  | some tool =>
    (tool.is_public && tool.security_level == ToolSecurityLevel.public)
      || (decide (tierRank tool.security_level ≤ clearance_rank_code security_clearance)
          && (tool.allowed_agent_types.isEmpty || tool.allowed_agent_types.contains agent_type))

/-- The database_connector built-in tool row (tools/registry.py lines
136-153): restricted, non-public, allow-listed to the financial
calculator and data converter agent types. -/
def database_connector : ToolRegistry :=
  { tool_name := "database_connector"
    is_public := false
    allowed_agent_types := ["financial_calculator", "data_converter"]
    security_level := .restricted
    is_deleted := false }

/-- A classified tool row, for exercising the classified tier. -/
def classified_tool : ToolRegistry :=
  { tool_name := "secret_tool"
    is_public := false
    allowed_agent_types := []
    security_level := .classified
    is_deleted := false }

/-- The pandas_processor tool as a public row, for exercising the
access gate's success path. -/
def pandas_processor_tool : ToolRegistry :=
  { tool_name := "pandas_processor"
    is_public := true
    allowed_agent_types := []
    security_level := .public
    is_deleted := false }

/-- A history message as stored by the LangChain chat message history:
its type tag is the LangChain type string, which is the lowercase
"human" or "ai" (not the class name "HumanMessage"). -/
structure HistoryMsg where
  type : String
  content : String
deriving DecidableEq

/-- A chat-completion message (role/content dict) as assembled by
AgentExecutionEngine._build_chat_messages. -/
structure ChatMsg where
  role : String
  content : String
deriving DecidableEq

/-- Chat output payload of a completed chat task (the output_data dict
of execute_chat_task's success result): response text, source list and
the context_used flag. Sources are modelled by their source identifier
string. -/
structure ChatOutput where
  response : String
  sources : List String
  context_used : Bool
deriving DecidableEq

/-- Output payload of a task result: chat payload or an opaque
tool-handler payload (the handlers' dicts are opaque to every claim). -/
inductive OutputData
  | chat (o : ChatOutput)
  | tool (payload : List (String × String))
deriving DecidableEq

/-- Task execution result (execution/engine.py, class TaskResult).
memory_used_mb is recorded in tenths of a megabyte so the 0.1-per-
message heuristic stays integral. -/
structure TaskResult where
  task_id : String
  status : TaskStatus
  output_data : Option OutputData := none
  error_message : Option String := none
  execution_time_ms : Option Nat := none
  memory_used_tenths_mb : Option Nat := none
  context_used : List String := []
  tools_used : List String := []
deriving DecidableEq

/-- Result of the retrieval collaborator's query contract (rag system):
answer text, source identifiers and the context_used flag. -/
structure RagQueryResult where
  answer : String
  sources : List String
  context_used : Bool
deriving DecidableEq

/-- Environment of one execute_chat_task call: outcome of the awaited
retrieval query on the task's message, conversation history returned by
the agent memory, the completion provider's outcome as a function of
the assembled message list, and elapsed wall-clock milliseconds. -/
structure ChatEnv where
  rag : Except String RagQueryResult
  history : List HistoryMsg
  llm : List ChatMsg → Except String String
  elapsed_ms : Nat

/-- System-message content built by _build_chat_messages from the agent
snapshot (name, description, comma-joined capabilities). -/
def systemContent (agent : Agent) : String :=
  "You are " ++ agent.name ++ ", a specialized AI agent.\nDescription: "
    ++ agent.description ++ "\nCapabilities: "
    ++ String.intercalate ", " agent.capabilities
    ++ "\n\nYou should respond helpfully and professionally, staying within your defined capabilities."

/-- Role translation of one history message in _build_chat_messages:
the code compares msg.type against the class name "HumanMessage", while
LangChain's type tag is "human"/"ai". -/
def histToChatMsg (msg : HistoryMsg) : ChatMsg :=
  { role := if msg.type = "HumanMessage" then "user" else "assistant"
    content := msg.content }

/-- AgentExecutionEngine._build_chat_messages (engine.py lines 253-290):
system message, then a loop appending each of the last 10 history
messages, then the joined grounding fragments as a system message when
any exist, then the current user message. -/
def build_chat_messages (agent : Agent) (message : String) (history : List HistoryMsg) (context_parts : List String) : List ChatMsg :=
  let messages : List ChatMsg := [⟨"system", systemContent agent⟩]
  let messages := (history.drop (history.length - 10)).foldl
    (fun acc msg => acc ++ [histToChatMsg msg]) messages
  let messages :=
    if context_parts.isEmpty then messages
    else messages ++ [⟨"system", String.intercalate "\n\n" context_parts⟩]
  messages ++ [⟨"user", message⟩]

/-- The grounding fragments and captured sources computed by
execute_chat_task's retrieval step (engine.py lines 92-111): empty when
retrieval is off; on a retrieval exception the inner handler logs and
leaves both empty; on success they are filled only when the retrieval
result flags context_used. -/
def ragContext (use_rag : Bool) (rag : Except String RagQueryResult) : List String × List String :=
  if use_rag then
    match rag with
    | .ok r =>
      if r.context_used then (["Relevant context:\n" ++ r.answer], r.sources)
      else ([], [])
    | .error _ => ([], [])
  else ([], [])

/-- The try-block body of execute_chat_task (engine.py lines 78-147) up
to its success payload: retrieval step, history fetch, message
assembly, completion-provider call (whose failure propagates to the
outer handler), memory writes (internally absorbed by the memory
manager, hence total here). -/
def chat_task_body (agent : Agent) (message : String) (use_rag : Bool) (env : ChatEnv) : Except String ChatOutput := do
  let (context_parts, sources_used) := ragContext use_rag env.rag
  let history := env.history
  let messages := build_chat_messages agent message history context_parts
  let response ← env.llm messages
  pure { response := response
         sources := sources_used
         context_used := !context_parts.isEmpty }

/-- AgentExecutionEngine.execute_chat_task (engine.py lines 67-161):
runs the body and converts any caught exception message into a failed
TaskResult; on success the memory heuristic counts the history plus the
two messages appended by the task itself. -/
def execute_chat_task (agent : Agent) (message : String) (ctx : ExecutionContext) (use_rag : Bool) (env : ChatEnv) : TaskResult :=
  match chat_task_body agent message use_rag env with
  | .ok out =>
    { task_id := ctx.task_id
      status := .completed
      output_data := some (.chat out)
      error_message := none
      execution_time_ms := some env.elapsed_ms
      memory_used_tenths_mb := some (env.history.length + 2)
      context_used := out.sources
      tools_used := [] }
  | .error e =>
    { task_id := ctx.task_id
      status := .failed
      output_data := none
      error_message := some e
      execution_time_ms := some env.elapsed_ms
      memory_used_tenths_mb := none
      context_used := []
      tools_used := [] }

/-- AgentExecutionEngine._determine_required_tools (engine.py lines
292-301): fixed task-type to tool-set table with a generic fallback. -/
def determine_required_tools (task_type : String) : List String :=
  if task_type = "data_analysis" then ["pandas_processor", "visualization_tool", "statistics_calculator"]
  else if task_type = "content_generation" then ["text_generator", "template_engine"]
  else if task_type = "code_review" then ["code_analyzer", "security_scanner", "linter"]
  else if task_type = "web_scraping" then ["web_scraper", "html_parser"]
  else if task_type = "file_processing" then ["file_processor", "document_parser"]
  else ["generic_processor"]

/-- Environment of one execute_tool_task call: registry table contents
after initialize, the dispatched task-type handler's outcome, and
elapsed wall-clock milliseconds. -/
structure ToolEnv where
  tools : List ToolRegistry
  handler : Except String OutputData
  elapsed_ms : Nat

/-- AgentExecutionEngine.execute_tool_task (engine.py lines 163-235):
resolve required tools, keep the accessible subset under the hardcoded
public clearance, fail without dispatching when it is empty, otherwise
dispatch to the task-type handler and convert a raised exception into a
failed result. -/
def execute_tool_task (agent : Agent) (task_type : String) (ctx : ExecutionContext) (env : ToolEnv) : TaskResult :=
  let required_tools := determine_required_tools task_type
  let accessible_tools := required_tools.filter
    (fun tool_name => check_tool_access env.tools tool_name agent.agent_type "public")
  if accessible_tools.isEmpty then
    { task_id := ctx.task_id
      status := .failed
      output_data := none
      error_message := some ("Agent does not have access to required tools: " ++ pyListRepr required_tools)
      execution_time_ms := some env.elapsed_ms
      memory_used_tenths_mb := none
      context_used := []
      tools_used := [] }
  else
    match env.handler with
    | .ok out =>
      { task_id := ctx.task_id
        status := .completed
        output_data := some out
        error_message := none
        execution_time_ms := some env.elapsed_ms
        memory_used_tenths_mb := none
        context_used := []
        tools_used := accessible_tools }
    | .error e =>
      { task_id := ctx.task_id
        status := .failed
        output_data := none
        error_message := some e
        execution_time_ms := some env.elapsed_ms
        memory_used_tenths_mb := none
        context_used := []
        tools_used := [] }

/-- The in-process active-task map of the engine (engine.py field
active_tasks), modelled as an association list keyed by task_id with
dict semantics (at most one binding per key, newest first). -/
abbrev ActiveTasks := List (String × ExecutionContext)

/-- Python dict membership/lookup on the active-task map. -/
def lookupTask (m : ActiveTasks) (task_id : String) : Option ExecutionContext :=
  (m.find? (fun p => p.1 == task_id)).map Prod.snd

/-- AgentExecutionEngine._register_task (engine.py lines 389-394):
insert-or-overwrite the context under its task_id. -/
def register_task (m : ActiveTasks) (ctx : ExecutionContext) : ActiveTasks :=
  (ctx.task_id, ctx) :: m.filter (fun p => p.1 != ctx.task_id)

/-- AgentExecutionEngine._unregister_task (engine.py lines 396-403):
delete the binding when present, otherwise leave the map unchanged. -/
def unregister_task (m : ActiveTasks) (task_id : String) : ActiveTasks :=
  if (lookupTask m task_id).isSome then m.filter (fun p => p.1 != task_id) else m

/-- AgentExecutionEngine.get_task_status (engine.py lines 237-241):
running when the id is bound in the active map, none otherwise. -/
def get_task_status (m : ActiveTasks) (task_id : String) : Option TaskStatus :=
  match lookupTask m task_id with
  | some _ => some .running
  | none => none

/-- AgentExecutionEngine.cancel_task (engine.py lines 243-251): delete
the binding and report true when present, otherwise report false. -/
def cancel_task (m : ActiveTasks) (task_id : String) : Bool × ActiveTasks :=
  if (lookupTask m task_id).isSome then
    (true, m.filter (fun p => p.1 != task_id))
  else
    (false, m)

/-- LangChain chat message history backing the windowed memory: an
unbounded message list to which add_user_message / add_ai_message
append. -/
structure ChatMessageHistory where
  messages : List HistoryMsg
deriving DecidableEq

/-- LangChain ConversationBufferWindowMemory as configured in
AgentMemory.__init__ (context.py lines 205-208): a window size k over
an unbounded chat_memory; the window is applied only when the buffer
view is read, never to the stored messages. -/
structure ConversationBufferWindowMemory where
  k : Nat
  chat_memory : ChatMessageHistory
deriving DecidableEq

/-- The windowed buffer view of ConversationBufferWindowMemory (the
LangChain load-variables path): the last 2*k stored messages. The
repository never reads this view. -/
def ConversationBufferWindowMemory.windowBuffer (m : ConversationBufferWindowMemory) : List HistoryMsg :=
  m.chat_memory.messages.drop (m.chat_memory.messages.length - 2 * m.k)

/-- One persisted conversation turn, as reconstructed from the shared
store by the session-history fallback. -/
structure ConversationTurn where
  user_message : String
  agent_response : String
deriving DecidableEq

/-- A LangChain base message as passed to AgentMemory.add_message. -/
inductive BaseMessage
  | human (content : String)
  | ai (content : String)
  | system (content : String)
deriving DecidableEq

/-- AgentMemory (context.py lines 195-212): agent/session identity, the
windowed short-term memory (k = 10), and the session turns available
from the shared store as fallback, newest first. The long-term
summarizing memory stays uninitialized on this path (context.py line
210) and is omitted. -/
structure AgentMemory where
  agent_id : String
  session_id : String
  short_term_memory : ConversationBufferWindowMemory
  stored_turns : List ConversationTurn
deriving DecidableEq

/-- AgentMemory.__init__: fresh memory with window size 10 ("Keep last
10 exchanges") and an empty message store. -/
def initAgentMemory (agent_id session_id : String) : AgentMemory :=
  { agent_id := agent_id
    session_id := session_id
    short_term_memory := { k := 10, chat_memory := { messages := [] } }
    stored_turns := [] }

/-- AgentMemory.add_message (context.py lines 238-271): a human message
is appended via add_user_message, an ai message via add_ai_message, any
other message type is not added to the chat memory; the parallel
context-item persistence is external and absorbed. -/
def AgentMemory.add_message (mem : AgentMemory) (msg : BaseMessage) : AgentMemory :=
  match msg with
  | .human c =>
    { mem with short_term_memory :=
      { mem.short_term_memory with chat_memory :=
        { messages := mem.short_term_memory.chat_memory.messages ++ [⟨"human", c⟩] } } }
  | .ai c =>
    { mem with short_term_memory :=
      { mem.short_term_memory with chat_memory :=
        { messages := mem.short_term_memory.chat_memory.messages ++ [⟨"ai", c⟩] } } }
  | .system _ => mem

/-- AgentMemory.get_conversation_history (context.py lines 296-317):
return the raw stored message list of the short-term memory when it is
non-empty; otherwise rebuild user/assistant pairs chronologically from
the last 20 persisted session turns. -/
def AgentMemory.get_conversation_history (mem : AgentMemory) : List HistoryMsg :=
  let messages := mem.short_term_memory.chat_memory.messages
  if messages.isEmpty then
    ((mem.stored_turns.take 20).reverse).foldl
      (fun acc turn => acc ++ [⟨"human", turn.user_message⟩, ⟨"ai", turn.agent_response⟩]) []
  else
    messages

/-- Adds n user/assistant exchange pairs to a memory through
add_message, mirroring the engine's per-task append of the user message
and the response. -/
def addPairs (mem : AgentMemory) : Nat → AgentMemory
  | 0 => mem
  | n + 1 => ((addPairs mem n).add_message (.human "u")).add_message (.ai "a")

/-- A stored context item as read by get_relevant_context (context.py,
class ContextItem): only id, type and content are consulted. -/
structure ContextItem where
  id : String
  type : String
  content : String
deriving DecidableEq

/-- MemoryStore.get_agent_context as consumed by get_relevant_context:
the store's context items for the agent, newest first, truncated to the
requested limit. -/
def get_agent_context (stored : List ContextItem) (limit : Nat) : List ContextItem :=
  stored.take limit

/-- The keyword test of AgentMemory.get_relevant_context: some
whitespace-separated word of the lowercased query occurs as a substring
of the lowercased item content. -/
def keywordMatch (query_lower : String) (item : ContextItem) : Bool :=
  (pySplitWhitespace query_lower).any (fun word => strContains (pyLower item.content) word)

/-- AgentMemory.get_relevant_context (context.py lines 319-346): fetch
up to limit*2 recent items, keep by the keyword test in a loop that
appends matches in encounter order, return the first limit of them. -/
def get_relevant_context (stored : List ContextItem) (query : String) (limit : Nat) : List ContextItem :=
  let context_items := get_agent_context stored (limit * 2)
  let query_lower := pyLower query
  let relevant_items := context_items.foldl
    (fun acc item => if keywordMatch query_lower item then acc ++ [item] else acc) []
  relevant_items.take limit

/-- Lowercase word set of a string: its whitespace-separated words with
duplicates removed. -/
def wordSet (s : String) : List String :=
  (pySplitWhitespace (pyLower s)).dedup

/-- Word-set overlap between a query and an item's content: the size of
the intersection of their lowercase word sets. -/
def overlapCount (query : String) (item : ContextItem) : Nat :=
  ((wordSet query).filter (fun w => (wordSet item.content).contains w)).length

/-- Stable insertion of an item into a list sorted by strictly larger
overlap first. -/
def insertByOverlap (query : String) (x : ContextItem) : List ContextItem → List ContextItem
  | [] => [x]
  | y :: ys =>
    if overlapCount query y < overlapCount query x then x :: y :: ys
    else y :: insertByOverlap query x ys

/-- The relevance filter in the words of claim C8 and spec section 4.3:
keep items whose content word set intersects the query word set, rank
them by overlap with larger intersections first, return the top limit.
Written for comparison against get_relevant_context. -/
def get_relevant_context_spec (stored : List ContextItem) (query : String) (limit : Nat) : List ContextItem :=
  let matching := stored.filter (fun item => 0 < overlapCount query item)
  (matching.foldr (insertByOverlap query) []).take limit

/-- Concrete stored item whose content shares one word with the query
"alpha beta". -/
def itemAlpha : ContextItem := { id := "1", type := "document", content := "alpha" }

/-- Concrete stored item whose content shares two words with the query
"alpha beta". -/
def itemAlphaBeta : ContextItem := { id := "2", type := "document", content := "alpha beta" }

/-- Concrete agent snapshot for witnesses. -/
def agentW : Agent :=
  { name := "Atlas", description := "general assistant", capabilities := ["chat"], agent_type := "custom" }

/-- Concrete execution context for witnesses. -/
def ctxW : ExecutionContext := { task_id := "t1", agent_id := "a1" }

/-- Chat environment whose completion provider raises
"LLM service unavailable" (spec Scenario B). -/
def chatFailEnv : ChatEnv :=
  { rag := .ok { answer := "ans", sources := ["s1"], context_used := true }
    history := []
    llm := fun _ => .error "LLM service unavailable"
    elapsed_ms := 5 }

/-- Chat environment whose completion provider answers "resp". -/
def chatOkEnv : ChatEnv :=
  { rag := .ok { answer := "ans", sources := ["s1"], context_used := true }
    history := []
    llm := fun _ => .ok "resp"
    elapsed_ms := 5 }

/-- Chat environment where retrieval raises and the completion provider
answers "resp". -/
def chatRagDownEnv : ChatEnv :=
  { rag := .error "retrieval down"
    history := []
    llm := fun _ => .ok "resp"
    elapsed_ms := 5 }

/-- Tool environment with one accessible public tool and a handler that
raises "boom". -/
def toolFailEnv : ToolEnv :=
  { tools := [pandas_processor_tool], handler := .error "boom", elapsed_ms := 7 }

/-- Tool environment over an empty registry table: every access check
fails. -/
def toolEmptyEnv : ToolEnv :=
  { tools := [], handler := .ok (.tool []), elapsed_ms := 7 }

theorem foldl_push_eq_append_map {α β : Type} (f : α → β) (l : List α) (init : List β) :
    l.foldl (fun acc x => acc ++ [f x]) init = init ++ l.map f := by
  induction l generalizing init with
  | nil => simp
  | cons hd tl ih => simp [ih]

theorem foldl_guard_eq_filter {α : Type} (p : α → Bool) (l : List α) (init : List α) :
    l.foldl (fun acc x => if p x then acc ++ [x] else acc) init = init ++ l.filter p := by
  induction l generalizing init with
  | nil => simp
  | cons hd tl ih => by_cases h : p hd <;> simp [h, ih]

theorem lookupTask_filter_self (m : ActiveTasks) (task_id : String) :
    lookupTask (m.filter (fun p => p.1 != task_id)) task_id = none := by
  induction m with
  | nil => rfl
  | cons hd tl ih =>
    by_cases h : hd.1 == task_id
    · simp only [List.filter]
      rw [show (hd.1 != task_id) = false by simp_all [bne]]
      exact ih
    · simp only [List.filter]
      rw [show (hd.1 != task_id) = true by simp_all [bne]]
      simp only [lookupTask, List.find?] at ih ⊢
      rw [show (hd.1 == task_id) = false by simp_all]
      exact ih

/-- C7: the message sequence assembled by execute_chat_task is exactly
one system message describing the agent's name/description/
capabilities, then at most the last 10 conversation-history messages in
order (a suffix of the history of length at most 10), then one system
message carrying the grounding fragments exactly when the fragment list
is non-empty, then the current user message last. -/
theorem build_chat_messages_structure
    (agent : Agent) (message : String) (history : List HistoryMsg) (context_parts : List String) :
    build_chat_messages agent message history context_parts
      = [⟨"system", systemContent agent⟩]
        ++ (history.drop (history.length - 10)).map histToChatMsg
        ++ (if context_parts = [] then []
            else [⟨"system", String.intercalate "\n\n" context_parts⟩])
        ++ [⟨"user", message⟩]
    ∧ (history.drop (history.length - 10)).length ≤ 10
    ∧ history.drop (history.length - 10) <:+ history := by
  refine ⟨?_, ?_, List.drop_suffix _ _⟩
  · simp only [build_chat_messages]
    rw [foldl_push_eq_append_map]
    by_cases h : context_parts = []
    · simp [h]
    · simp only [h, if_false]
      rw [show context_parts.isEmpty = false by simpa [List.isEmpty_iff] using h]
      simp
  · rw [List.length_drop]
    omega

/-- C8 counterexample: with stored items whose contents are "alpha"
(overlap 1 with the query "alpha beta") and "alpha beta" (overlap 2),
and limit 1, the code returns the first stored match, not the item with
the larger word-set overlap that the claim's ranking would select. -/
theorem get_relevant_context_ranking_counterexample :
    get_relevant_context [itemAlpha, itemAlphaBeta] "alpha beta" 1 = [itemAlpha]
    ∧ get_relevant_context_spec [itemAlpha, itemAlphaBeta] "alpha beta" 1 = [itemAlphaBeta]
    ∧ overlapCount "alpha beta" itemAlpha = 1
    ∧ overlapCount "alpha beta" itemAlphaBeta = 2
    ∧ get_relevant_context [itemAlpha, itemAlphaBeta] "alpha beta" 1
        ≠ get_relevant_context_spec [itemAlpha, itemAlphaBeta] "alpha beta" 1 := by
  refine ⟨by decide, by decide, by decide, by decide, by decide⟩

/-- C8 amended: get_relevant_context keeps, of the up to 2*limit most
recent stored items, those with at least one lowercase query word
occurring as a substring of the lowercased item content, in their
stored order (no ranking by word-set overlap), and returns the first
limit of them. -/
theorem get_relevant_context_characterization
    (stored : List ContextItem) (query : String) (limit : Nat) :
    get_relevant_context stored query limit
      = (((stored.take (limit * 2)).filter (keywordMatch (pyLower query))).take limit) := by
  simp only [get_relevant_context, get_agent_context]
  rw [foldl_guard_eq_filter]
  simp

/-- C5: get_task_status is some running exactly when the task id is
bound in the active-task map (and none exactly otherwise); cancel_task
reports presence, removes the binding exactly when it reports true and
leaves the map unchanged otherwise; after unregister_task or a
successful cancel_task the status is none. -/
theorem task_registry_accuracy (m : ActiveTasks) (task_id : String) :
    (get_task_status m task_id = some TaskStatus.running ↔ (lookupTask m task_id).isSome = true)
    ∧ (get_task_status m task_id = none ↔ (lookupTask m task_id).isSome = false)
    ∧ ((cancel_task m task_id).1 = (lookupTask m task_id).isSome)
    ∧ ((cancel_task m task_id).1 = true → lookupTask (cancel_task m task_id).2 task_id = none)
    ∧ ((cancel_task m task_id).1 = false → (cancel_task m task_id).2 = m)
    ∧ get_task_status (unregister_task m task_id) task_id = none
    ∧ ((cancel_task m task_id).1 = true → get_task_status (cancel_task m task_id).2 task_id = none) := by
  cases h : lookupTask m task_id with
  | some c =>
    simp [get_task_status, cancel_task, unregister_task, h, lookupTask_filter_self]
  | none =>
    simp [get_task_status, cancel_task, unregister_task, h]

/-- C5 witness (spec Scenario A): after registering task t1,
cancel_task reports true and get_task_status on the resulting map is
none. -/
theorem task_registry_accuracy_witness :
    (cancel_task (register_task [] ctxW) "t1").1 = true
    ∧ get_task_status (cancel_task (register_task [] ctxW) "t1").2 "t1" = none := by
  have h := task_registry_accuracy (register_task [] ctxW) "t1"
  exact ⟨by rfl, h.2.2.2.2.2.2 (by rfl)⟩

/-- C10 (implicit): a tool whose security level is classified is denied
by check_tool_access for every agent type and every clearance string:
the public fast path requires the public level and no clearance's
allowed-level list contains the classified level. -/
theorem classified_tools_inaccessible
    (tools : List ToolRegistry) (tool_name agent_type security_clearance : String)
    (t : ToolRegistry) (hfind : get_tool tools tool_name = some t)
    (hlvl : t.security_level = ToolSecurityLevel.classified) :
    check_tool_access tools tool_name agent_type security_clearance = false := by
  unfold check_tool_access
  rw [hfind]
  simp only [hlvl, security_levels]
  split_ifs <;> simp_all

/-- C10 witness: the classified secret_tool is denied at a concrete
registry, agent type and clearance. -/
theorem classified_tools_inaccessible_witness :
    check_tool_access [classified_tool] "secret_tool" "custom" "internal" = false :=
  classified_tools_inaccessible [classified_tool] "secret_tool" "custom" "internal"
    classified_tool rfl rfl

/-- C2 counterexample: for the built-in database_connector row
(restricted tier, allow-listed financial_calculator) and the clearance
string "classified", the claim's dominance order (classified dominates
restricted) answers true, but check_tool_access answers false: the
clearance table has no "classified" entry and defaults to the
public-only list. -/
theorem check_tool_access_claim_counterexample :
    check_tool_access [database_connector] "database_connector" "financial_calculator" "classified" = false
    ∧ check_tool_access_spec [database_connector] "database_connector" "financial_calculator" "classified" = true
    ∧ check_tool_access [database_connector] "database_connector" "financial_calculator" "classified"
        ≠ check_tool_access_spec [database_connector] "database_connector" "financial_calculator" "classified" := by
  refine ⟨by decide, by decide, by decide⟩

/-- C2 amended: check_tool_access is false when no non-deleted tool of
that name exists, true immediately when the tool is public at the
public level, and otherwise true exactly when the tool's tier is
dominated by the clearance under the code's table — restricted ranks 1,
internal ranks 2, every other clearance string (public, classified,
or unknown) ranks 0, and a classified tool tier is dominated by no
clearance — and, when the tool declares a non-empty allowed_agent_types
list, the agent type is a member of it. -/
theorem check_tool_access_eq_amended
    (tools : List ToolRegistry) (tool_name agent_type security_clearance : String) :
    check_tool_access tools tool_name agent_type security_clearance
      = check_tool_access_amended tools tool_name agent_type security_clearance := by
  unfold check_tool_access check_tool_access_amended
  cases hfind : get_tool tools tool_name with
  | none => rfl
  | some tool =>
    by_cases hp : (tool.is_public && tool.security_level == ToolSecurityLevel.public) = true
    · simp [hp]
    · have hcont : (security_levels security_clearance).contains tool.security_level
          = decide (tierRank tool.security_level ≤ clearance_rank_code security_clearance) := by
        unfold security_levels clearance_rank_code
        cases tool.security_level <;> split_ifs <;> first | rfl | simp_all
      simp only [Bool.not_eq_true] at hp
      simp only [hp, Bool.false_eq_true, if_false, Bool.false_or, hcont]
      cases hdom : decide (tierRank tool.security_level ≤ clearance_rank_code security_clearance) <;>
        by_cases he : tool.allowed_agent_types.isEmpty <;>
        by_cases hm : tool.allowed_agent_types.contains agent_type <;>
        simp [hdom, he, hm]

theorem required_tools_mentioned (task_type : String) :
    ∀ name ∈ determine_required_tools task_type,
      strContains ("Agent does not have access to required tools: "
        ++ pyListRepr (determine_required_tools task_type)) name = true := by
  unfold determine_required_tools
  split_ifs <;> decide

/-- C1: both task entry points are total functions into TaskResult
(status completed or failed on every environment), and when the task
body raises an exception with message m — the completion provider for
the chat task, the dispatched handler for the tool task — the returned
result is failed with error_message exactly m and with the elapsed
milliseconds recorded (a Nat, hence non-negative). -/
theorem execute_task_no_propagation
    (agent : Agent) (message : String) (ctx : ExecutionContext) (use_rag : Bool)
    (cenv : ChatEnv) (task_type : String) (tctx : ExecutionContext) (tenv : ToolEnv)
    (m m' : String)
    (hchat : chat_task_body agent message use_rag cenv = Except.error m)
    (hacc : ((determine_required_tools task_type).filter
      (fun n => check_tool_access tenv.tools n agent.agent_type "public")).isEmpty = false)
    (htool : tenv.handler = Except.error m') :
    (∀ env : ChatEnv,
      (execute_chat_task agent message ctx use_rag env).status = TaskStatus.completed
      ∨ (execute_chat_task agent message ctx use_rag env).status = TaskStatus.failed)
    ∧ (∀ env : ToolEnv,
      (execute_tool_task agent task_type tctx env).status = TaskStatus.completed
      ∨ (execute_tool_task agent task_type tctx env).status = TaskStatus.failed)
    ∧ (execute_chat_task agent message ctx use_rag cenv).status = TaskStatus.failed
    ∧ (execute_chat_task agent message ctx use_rag cenv).error_message = some m
    ∧ (execute_chat_task agent message ctx use_rag cenv).execution_time_ms = some cenv.elapsed_ms
    ∧ (execute_tool_task agent task_type tctx tenv).status = TaskStatus.failed
    ∧ (execute_tool_task agent task_type tctx tenv).error_message = some m'
    ∧ (execute_tool_task agent task_type tctx tenv).execution_time_ms = some tenv.elapsed_ms := by
  refine ⟨?_, ?_, ?_, ?_, ?_, ?_, ?_, ?_⟩
  · intro env
    unfold execute_chat_task
    cases chat_task_body agent message use_rag env <;> simp
  · intro env
    unfold execute_tool_task
    cases ha : ((determine_required_tools task_type).filter
        (fun n => check_tool_access env.tools n agent.agent_type "public")).isEmpty
    · cases hh : env.handler <;> simp [ha, hh]
    · simp [ha]
  · simp [execute_chat_task, hchat]
  · simp [execute_chat_task, hchat]
  · simp [execute_chat_task, hchat]
  · simp [execute_tool_task, hacc, htool]
  · simp [execute_tool_task, hacc, htool]
  · simp [execute_tool_task, hacc, htool]

/-- C1 witness (spec Scenario B for the chat half): with a completion
provider raising "LLM service unavailable" and a tool handler raising
"boom" over a registry granting pandas_processor, both entry points
return failed results carrying those messages and the elapsed time. -/
theorem execute_task_no_propagation_witness :
    (execute_chat_task agentW "hi" ctxW true chatFailEnv).status = TaskStatus.failed
    ∧ (execute_chat_task agentW "hi" ctxW true chatFailEnv).error_message = some "LLM service unavailable"
    ∧ (execute_chat_task agentW "hi" ctxW true chatFailEnv).execution_time_ms = some chatFailEnv.elapsed_ms
    ∧ (execute_tool_task agentW "data_analysis" ctxW toolFailEnv).status = TaskStatus.failed
    ∧ (execute_tool_task agentW "data_analysis" ctxW toolFailEnv).error_message = some "boom"
    ∧ (execute_tool_task agentW "data_analysis" ctxW toolFailEnv).execution_time_ms = some toolFailEnv.elapsed_ms := by
  have h := execute_task_no_propagation agentW "hi" ctxW true chatFailEnv
    "data_analysis" ctxW toolFailEnv "LLM service unavailable" "boom"
    (by rfl) (by rfl) (by rfl)
  exact h.2.2

/-- C3: when the access check denies every required tool of the task
type, execute_tool_task returns a failed result whose error message is
the access-denied sentence carrying the Python repr of the full
required-tool list — hence mentioning every required tool name as a
substring — and the dispatched handler's outcome never influences the
result. -/
theorem execute_tool_task_access_gate
    (agent : Agent) (task_type : String) (ctx : ExecutionContext) (env : ToolEnv)
    (h : (determine_required_tools task_type).filter
      (fun n => check_tool_access env.tools n agent.agent_type "public") = []) :
    (execute_tool_task agent task_type ctx env).status = TaskStatus.failed
    ∧ (execute_tool_task agent task_type ctx env).error_message
        = some ("Agent does not have access to required tools: "
            ++ pyListRepr (determine_required_tools task_type))
    ∧ (∀ name ∈ determine_required_tools task_type,
        strContains ("Agent does not have access to required tools: "
          ++ pyListRepr (determine_required_tools task_type)) name = true)
    ∧ (∀ handler' : Except String OutputData,
        execute_tool_task agent task_type ctx { env with handler := handler' }
          = execute_tool_task agent task_type ctx env) := by
  refine ⟨?_, ?_, required_tools_mentioned task_type, ?_⟩
  · simp [execute_tool_task, h]
  · simp [execute_tool_task, h]
  · intro handler'
    simp [execute_tool_task, h]

/-- C3 witness: over an empty registry table no required tool of the
data_analysis task type is accessible, and the result is the failed
access-denied message. -/
theorem execute_tool_task_access_gate_witness :
    (execute_tool_task agentW "data_analysis" ctxW toolEmptyEnv).status = TaskStatus.failed
    ∧ (execute_tool_task agentW "data_analysis" ctxW toolEmptyEnv).error_message
        = some ("Agent does not have access to required tools: "
            ++ pyListRepr (determine_required_tools "data_analysis")) := by
  have h := execute_tool_task_access_gate agentW "data_analysis" ctxW toolEmptyEnv (by rfl)
  exact ⟨h.1, h.2.1⟩

/-- C6: with use_rag false the chat task consults no retrieval outcome
(the result is invariant under the retrieval oracle), and any chat
output it completes with has context_used false and an empty source
list. -/
theorem execute_chat_task_rag_opt_out
    (agent : Agent) (message : String) (ctx : ExecutionContext) (env : ChatEnv) :
    (∀ rag' : Except String RagQueryResult,
      execute_chat_task agent message ctx false { env with rag := rag' }
        = execute_chat_task agent message ctx false env)
    ∧ (∀ out : ChatOutput,
        (execute_chat_task agent message ctx false env).output_data
          = some (OutputData.chat out)
        → out.context_used = false ∧ out.sources = []) := by
  constructor
  · intro rag'
    rfl
  · intro out hout
    unfold execute_chat_task chat_task_body ragContext at hout
    cases hllm : env.llm (build_chat_messages agent message env.history []) <;>
      simp [hllm, Except.bind] at hout
    subst hout
    exact ⟨rfl, rfl⟩

/-- C6 witness: a concrete opted-out call completes with context_used
false and no sources. -/
theorem execute_chat_task_rag_opt_out_witness :
    ChatOutput.context_used { response := "resp", sources := [], context_used := false } = false
    ∧ ChatOutput.sources { response := "resp", sources := [], context_used := false } = [] :=
  (execute_chat_task_rag_opt_out agentW "hi" ctxW chatOkEnv).2
    { response := "resp", sources := [], context_used := false } (by rfl)

/-- C9: when retrieval is requested but the retrieval query raises, and
the completion provider succeeds on the messages assembled without
grounding fragments, the chat task still completes, with context_used
false and an empty source list — a retrieval failure alone never fails
the task. -/
theorem execute_chat_task_rag_failure_nonfatal
    (agent : Agent) (message : String) (ctx : ExecutionContext) (env : ChatEnv)
    (m resp : String)
    (hrag : env.rag = Except.error m)
    (hllm : env.llm (build_chat_messages agent message env.history []) = Except.ok resp) :
    (execute_chat_task agent message ctx true env).status = TaskStatus.completed
    ∧ (execute_chat_task agent message ctx true env).output_data
        = some (OutputData.chat { response := resp, sources := [], context_used := false }) := by
  unfold execute_chat_task chat_task_body ragContext
  rw [hrag]
  simp [hllm, Except.bind]

/-- C9 witness: with retrieval raising "retrieval down" and the
provider answering "resp", the concrete call completes without
grounding. -/
theorem execute_chat_task_rag_failure_nonfatal_witness :
    (execute_chat_task agentW "hi" ctxW true chatRagDownEnv).status = TaskStatus.completed
    ∧ (execute_chat_task agentW "hi" ctxW true chatRagDownEnv).output_data
        = some (OutputData.chat { response := "resp", sources := [], context_used := false }) :=
  execute_chat_task_rag_failure_nonfatal agentW "hi" ctxW chatRagDownEnv
    "retrieval down" "resp" (by rfl) (by rfl)

/-- C4 (code-bug evidence): the windowed memory is configured with
window size 10 ("Keep last 10 exchanges"), yet after adding 15
user/assistant pairs (k+5 exchanges for k = 10) get_conversation_history
returns all 30 stored messages — the raw LangChain message store, not
the 2*k-message window that the buffer view would yield — violating the
claimed bound of at most 2*k = 20 messages. -/
theorem get_conversation_history_window_not_applied :
    (addPairs (initAgentMemory "a1" "s1") 15).short_term_memory.k = 10
    ∧ ((addPairs (initAgentMemory "a1" "s1") 15).get_conversation_history).length = 30
    ∧ (addPairs (initAgentMemory "a1" "s1") 15).short_term_memory.windowBuffer.length = 20
    ∧ ¬ ((addPairs (initAgentMemory "a1" "s1") 15).get_conversation_history).length
          ≤ 2 * (addPairs (initAgentMemory "a1" "s1") 15).short_term_memory.k := by
  refine ⟨by decide, by decide, by decide, by decide⟩
